import Mathlib

/-!
Shallow embedding of `src/packages/happy-cli/src/claude/utils/startHappyServer.ts`
(the Happy MCP server: an ephemeral loopback HTTP server exposing one
`change_title` tool that forwards a renamed chat title to the session client).

JavaScript effects are made explicit: thrown values are a `JsValue` datatype,
the session client's send capability is a parameter returning a `SendOutcome`
(synchronous return, synchronous throw, or an unawaited promise), logging is
out of scope, and `randomUUID()` / `hostname()` results are parameters.
-/

/-- Values a JavaScript expression can throw or stringify: plain strings,
numbers, `Error` objects (with a `name` and a `message`), `undefined`, `null`. -/
inductive JsValue where
  | str (s : String)
  | num (n : Int)
  | errorObj (name message : String)
  | undef
  | nullv
  deriving DecidableEq, Repr

/-- Embeds the JavaScript `String(v)` conversion used at line 36
(`String(error)`).  `Error.prototype.toString` yields `name: message`,
degenerating to just `name` when the message is empty and to just `message`
when the name is empty. -/
def jsString : JsValue → String
  | .str s => s
  | .num n => toString n
  | .errorObj name message =>
      if message = "" then name
      else if name = "" then message
      else name ++ ": " ++ message
  | .undef => "undefined"
  | .nullv => "null"

/-- The message object passed to `client.sendClaudeSessionMessage` at
lines 28-32 of the source. -/
structure ClaudeSessionMessage where
  type : String
  summary : String
  leafUuid : String
  deriving DecidableEq, Repr

/-- Possible behaviours of one call to the session client's send capability,
seen from the (non-awaiting) caller at line 28: the call returns normally,
throws synchronously, or returns a promise that settles later with the given
result (the source does not `await` it). -/
inductive SendOutcome where
  | ok
  | raise (e : JsValue)
  | deferred (later : Except JsValue Unit)
  deriving Repr

instance : DecidableEq (Except JsValue Unit) := fun a b =>
  match a, b with
  | .ok (), .ok () => isTrue rfl
  | .error e, .error f =>
      if h : e = f then isTrue (by rw [h]) else isFalse (by simpa using h)
  | .ok (), .error _ => isFalse (by simp)
  | .error _, .ok () => isFalse (by simp)

instance : DecidableEq SendOutcome := fun a b =>
  match a, b with
  | .ok, .ok => isTrue rfl
  | .raise e, .raise f =>
      if h : e = f then isTrue (by rw [h]) else isFalse (by simpa using h)
  | .deferred x, .deferred y =>
      if h : x = y then isTrue (by rw [h]) else isFalse (by simpa using h)
  | .ok, .raise _ => isFalse (by simp)
  | .ok, .deferred _ => isFalse (by simp)
  | .raise _, .ok => isFalse (by simp)
  | .raise _, .deferred _ => isFalse (by simp)
  | .deferred _, .ok => isFalse (by simp)
  | .deferred _, .raise _ => isFalse (by simp)

/-- Eventual delivery outcome of one send attempt: a synchronous return or a
resolved promise is a success, a synchronous throw or a rejected promise is a
failure carrying the thrown value. -/
def deliveryOutcome : SendOutcome → Except JsValue Unit
  | .ok => .ok ()
  | .raise e => .error e
  | .deferred later => later

/-- The `prefixedTitle` string built at line 24: `[<hostname>] <title>`. -/
def prefixedTitle (hn title : String) : String :=
  "[" ++ hn ++ "] " ++ title

/-- The summary message the handler sends (lines 28-32): type `summary`,
summary `[<hostname>] <title>`, leafUuid the value `randomUUID()` returned. -/
def mkMsg (hn uuid title : String) : ClaudeSessionMessage :=
  { type := "summary", summary := prefixedTitle hn title, leafUuid := uuid }

/-- The record returned by `handler` (lines 34 and 36): `{ success: true }`
on the non-throwing path (the `error` property is absent, i.e. `none`) and
`{ success: false, error: String(error) }` when the send call throws. -/
structure HandlerResult where
  success : Bool
  error : Option String
  deriving DecidableEq, Repr

/-- Result of one `handler` execution together with the list of messages it
passed to `client.sendClaudeSessionMessage` (the send call happens exactly
once, before any branching). -/
structure HandlerTrace where
  result : HandlerResult
  sent : List ClaudeSessionMessage
  deriving DecidableEq, Repr

/-- Embeds `handler` (lines 23-38).  `send` is the session client's send
capability, `hn` the value of `hostname()`, `uuid` the value of
`randomUUID()`.  The send call is not awaited, so only a synchronous throw
reaches the `catch` block; a returned promise (the `deferred` case) is
dropped and the success path is taken regardless of how it later settles. -/
def handler (send : ClaudeSessionMessage → SendOutcome) (hn uuid title : String) :
    HandlerTrace :=
  let msg := mkMsg hn uuid title
  match send msg with
  | .ok => { result := { success := true, error := none }, sent := [msg] }
  | .raise e => { result := { success := false, error := some (jsString e) }, sent := [msg] }
  | .deferred _ => { result := { success := true, error := none }, sent := [msg] }

/-- One content block of a tool result (`{ type: 'text', text: ... }`). -/
structure ContentBlock where
  type : String
  text : String
  deriving DecidableEq, Repr

/-- The tool result envelope returned by the `change_title` callback:
a list of content blocks and the `isError` flag. -/
structure ToolResult where
  content : List ContentBlock
  isError : Bool
  deriving DecidableEq, Repr

/-- Embeds the JavaScript `x || 'Unknown error'` applied to `response.error`
at line 76: an absent (`undefined`) or empty-string error is falsy and is
replaced by the fallback. -/
def errorOrUnknown : Option String → String
  | none => "Unknown error"
  | some s => if s = "" then "Unknown error" else s

/-- Embeds the `change_title` tool callback (lines 57-82): run `handler` on
the caller's `title`, then map the success/failure record to a tool result
with one text content block and the `isError` flag.  Also returns the list of
messages passed to the session client during the call.  The function is
total: no exception escapes the callback. -/
def change_title (send : ClaudeSessionMessage → SendOutcome) (hn uuid title : String) :
    ToolResult × List ClaudeSessionMessage :=
  let t := handler send hn uuid title
  if t.result.success then
    let block : ContentBlock :=
      { type := "text", text := "Successfully changed chat title to: \"" ++ title ++ "\"" }
    ({ content := [block], isError := false }, t.sent)
  else
    let block : ContentBlock :=
      { type := "text", text := "Failed to change chat title: " ++ errorOrUnknown t.result.error }
    ({ content := [block], isError := true }, t.sent)

/-! ## The per-request HTTP handler (lines 91-105) -/

/-- Minimal view of the state of the HTTP response object when the request
handler finishes or fails. -/
structure HttpResponse where
  status : Nat
  body : String
  deriving DecidableEq, Repr

/-- Outcome of the `try` body at lines 92-98 (constructing the per-request
McpServer, constructing the transport, `mcp.connect`, and
`transport.handleRequest`): either it completed and the transport produced a
response, or some step threw a value, with `headersSent` recording whether
response headers had already been written, and `resSoFar` the response state
already on the wire in that case. -/
inductive ReqOutcome where
  | completed (response : HttpResponse)
  | raised (e : JsValue) (headersSent : Bool) (resSoFar : HttpResponse)
  deriving DecidableEq, Repr

/-- Embeds the request handler (lines 91-105): the `catch` block swallows any
thrown value; if headers were not yet sent it answers `res.writeHead(500).end()`
(bare 500 status, empty body), otherwise it leaves the response as already
sent.  Totality of this function embeds that no exception propagates out of
the request handler. -/
def requestHandler : ReqOutcome → HttpResponse
  | .completed response => response
  | .raised _ false _ => { status := 500, body := "" }
  | .raised _ true resSoFar => resSoFar

/-! ## Per-request instance freshness (lines 45-49, 91-98) -/

/-- An `McpServer` instance as configured by `createMcpServer` (lines 45-85):
an allocation identity plus the constructor arguments and the single
registered tool. -/
structure McpServerInst where
  id : Nat
  name : String
  version : String
  tools : List String
  deriving DecidableEq, Repr

/-- Embeds `createMcpServer` (lines 45-85): a fresh `McpServer` named
"Happy MCP" version "1.0.0" with exactly the `change_title` tool registered.
`id` is the allocation identity of the `new McpServer(...)` call. -/
def createMcpServer (id : Nat) : McpServerInst :=
  { id := id, name := "Happy MCP", version := "1.0.0", tools := ["change_title"] }

/-- The pair of instances a single inbound request gets (lines 93-96): a
freshly constructed `McpServer` and a freshly constructed
`StreamableHTTPServerTransport`, identified by its allocation identity. -/
structure RequestInstances where
  mcp : McpServerInst
  transportId : Nat
  deriving DecidableEq, Repr

/-- Embeds the request loop of the HTTP server: each inbound request runs the
handler at lines 91-105, which allocates a brand-new `McpServer` and a
brand-new transport before processing.  `next` is the next free allocation
identity; each request consumes two fresh identities. -/
def serveRequests (next : Nat) : Nat → List RequestInstances
  | 0 => []
  | n + 1 =>
      { mcp := createMcpServer next, transportId := next + 1 } ::
        serveRequests (next + 2) n

/-- All allocation identities handed out across a run of `n` requests. -/
def allIds (next n : Nat) : List Nat :=
  (serveRequests next n).flatMap fun r => [r.mcp.id, r.transportId]

/-! ## Listening, the base URL and the returned handle (lines 107-123) -/

/-- State of a JavaScript promise as observed by an awaiter: settled with a
value, settled with a rejection, or never settled. -/
inductive PromiseState (α : Type) where
  | resolved (v : α)
  | rejected (e : JsValue)
  | pending
  deriving DecidableEq, Repr

/-- Embeds `new URL(`http://127.0.0.1:<port>`).toString()` (lines 110, 117):
WHATWG URL serialization of an `http` URL with an empty path always renders
the path as `/`, so the string carries a trailing slash. -/
def urlToString (port : Nat) : String :=
  "http://127.0.0.1:" ++ toString port ++ "/"

/-- Embeds the promise built at lines 107-112.  Its executor receives only
`resolve`; `server.listen(0, "127.0.0.1", cb)` invokes `cb` exactly when the
listener is bound, and the code installs no `error` listener and never calls
a reject.  So the promise resolves with the serialized URL on a successful
bind and never settles when the bind fails (the bind error is emitted as an
unhandled `error` event instead). -/
def baseUrlPromise (listenResult : Except JsValue Nat) : PromiseState String :=
  match listenResult with
  | .ok port => .resolved (urlToString port)
  | .error _ => .pending

/-- The handle returned by `startHappyServer` (lines 116-123), as a function
of the OS-assigned bound port.  `stop` is modelled separately as its trace of
session-client operations (`stopClientOps`). -/
structure HappyServerHandle where
  url : String
  toolNames : List String
  deriving DecidableEq, Repr

/-- Embeds the successful completion of `startHappyServer` (lines 116-123):
the handle's `url` is `baseUrl.toString()` and `toolNames` is the literal
list `['change_title']`, independent of the session client (`sessionId` is
the client's session identifier, used only in log strings). -/
def startHappyServer (sessionId : String) (boundPort : Nat) : HappyServerHandle :=
  let _ := sessionId
  { url := urlToString boundPort, toolNames := ["change_title"] }

/-! ## Session-client interaction traces (frame effects) -/

/-- One interaction with the session client: reading `client.sessionId` or
calling `client.sendClaudeSessionMessage(msg)`. -/
inductive ClientOp where
  | readSessionId
  | sendMessage (msg : ClaudeSessionMessage)
  deriving DecidableEq, Repr

/-- Session-client operations performed by `startHappyServer` itself, outside
any tool execution: lines 20 and 114 read `client.sessionId` for log strings;
nothing else touches the client. -/
def startClientOps : List ClientOp :=
  [.readSessionId, .readSessionId]

/-- Session-client operations performed by `stop` (lines 119-122): line 120
reads `client.sessionId` for a log string; `server.close()` does not touch
the client. -/
def stopClientOps : List ClientOp :=
  [.readSessionId]

/-- Session-client operations performed by one execution of the tool body
(`handler`, lines 23-38): exactly one `sendClaudeSessionMessage` call with
the summary message. -/
def handlerClientOps (hn uuid title : String) : List ClientOp :=
  [.sendMessage (mkMsg hn uuid title)]

/-! ## Claims -/

/-- C1: for every string title, when the session client's send succeeds, the
`change_title` tool returns a result with exactly one text content block whose
text is `Successfully changed chat title to: "<title>"` (the caller's title
verbatim, un-prefixed) and the error flag false, and exactly one summary-typed
message with summary `[<hostname>] <title>` and the freshly generated
`leafUuid` is sent to the session client. -/
theorem C1_change_title_success (send : ClaudeSessionMessage → SendOutcome)
    (hn uuid title : String) (h : send (mkMsg hn uuid title) = SendOutcome.ok) :
    change_title send hn uuid title =
      ({ content := [{ type := "text", text := "Successfully changed chat title to: \"" ++ title ++ "\"" }], isError := false },
       [{ type := "summary", summary := "[" ++ hn ++ "] " ++ title, leafUuid := uuid }]) := by
  simp only [change_title, handler, h]
  simp [mkMsg, prefixedTitle]

/-- Witness for C1 at the spec's example scenario: hostname `myhost`, title
`Refactor plan`, a send capability that succeeds. -/
theorem C1_change_title_success_witness :
    (fun _ : ClaudeSessionMessage => SendOutcome.ok) (mkMsg "myhost" "u1" "Refactor plan") = SendOutcome.ok ∧
    change_title (fun _ => SendOutcome.ok) "myhost" "u1" "Refactor plan" =
      ({ content := [{ type := "text", text := "Successfully changed chat title to: \"Refactor plan\"" }], isError := false },
       [{ type := "summary", summary := "[myhost] Refactor plan", leafUuid := "u1" }]) :=
  ⟨rfl, (C1_change_title_success (fun _ => SendOutcome.ok) "myhost" "u1" "Refactor plan" rfl).trans (by decide)⟩

/-- C2: if the send capability throws during a `change_title` call, the tool
returns a result with exactly one text content block
`Failed to change chat title: <reason>` and the error flag true, where the
reason falls back to `Unknown error` exactly when the stringified thrown value
is empty.  `change_title` is a total function: the thrown value never escapes
the callback. -/
theorem C2_change_title_failure (send : ClaudeSessionMessage → SendOutcome)
    (hn uuid title : String) (e : JsValue)
    (h : send (mkMsg hn uuid title) = SendOutcome.raise e) :
    (change_title send hn uuid title).1 =
      { content := [{ type := "text", text := "Failed to change chat title: " ++ (if jsString e = "" then "Unknown error" else jsString e) }], isError := true } := by
  simp only [change_title, handler, h]
  simp [errorOrUnknown]

/-- Witness for C2: a send capability that throws the string `boom`. -/
theorem C2_change_title_failure_witness :
    (fun _ : ClaudeSessionMessage => SendOutcome.raise (JsValue.str "boom")) (mkMsg "myhost" "u1" "New title") = SendOutcome.raise (JsValue.str "boom") ∧
    (change_title (fun _ => SendOutcome.raise (JsValue.str "boom")) "myhost" "u1" "New title").1 =
      { content := [{ type := "text", text := "Failed to change chat title: boom" }], isError := true } :=
  ⟨rfl, (C2_change_title_failure (fun _ => SendOutcome.raise (JsValue.str "boom")) "myhost" "u1" "New title" (JsValue.str "boom") rfl).trans (by decide)⟩

/-- C3 counterexample: the send call at line 28 is not awaited, so when the
send capability is internally asynchronous (returns a promise) and that
promise later rejects, the tool call has already returned a success result:
the result does not reflect the delivery outcome. -/
theorem C3_deferred_send_counterexample :
    deliveryOutcome ((fun _ : ClaudeSessionMessage => SendOutcome.deferred (Except.error (JsValue.str "network down"))) (mkMsg "myhost" "u2" "New title")) = Except.error (JsValue.str "network down") ∧
    (change_title (fun _ => SendOutcome.deferred (Except.error (JsValue.str "network down"))) "myhost" "u2" "New title").1 =
      { content := [{ type := "text", text := "Successfully changed chat title to: \"New title\"" }], isError := false } := by
  decide

/-- C3 amended: the tool result reflects only the synchronous outcome of the
send call: the error flag is true exactly when the send call throws
synchronously; a returned promise is not awaited, so the tool reports success
regardless of how the deferred delivery later settles. -/
theorem C3_sync_outcome_only (send : ClaudeSessionMessage → SendOutcome)
    (hn uuid title : String) :
    ((change_title send hn uuid title).1.isError = true ↔
      ∃ e, send (mkMsg hn uuid title) = SendOutcome.raise e) := by
  cases hs : send (mkMsg hn uuid title) <;> simp [change_title, handler, hs]

/-- C4: any value thrown outside the tool body (registry construction,
transport construction, `connect`, or `handleRequest`) is caught by the
request-level `catch`; when no response headers have been sent the request is
answered with a bare 500 status and empty body, and when headers were already
sent the response is left as is.  Totality of `requestHandler` embeds that the
exception never propagates out of the request handler. -/
theorem C4_request_level_catch :
    (∀ (e : JsValue) (resSoFar : HttpResponse),
        requestHandler (ReqOutcome.raised e false resSoFar) = { status := 500, body := "" }) ∧
    (∀ (e : JsValue) (resSoFar : HttpResponse),
        requestHandler (ReqOutcome.raised e true resSoFar) = resSoFar) :=
  ⟨fun _ _ => rfl, fun _ _ => rfl⟩

/-- Unfolding equation for `allIds`: each request contributes its two fresh
allocation identities before the rest of the run. -/
theorem allIds_succ (next n : Nat) :
    allIds next (n + 1) = next :: (next + 1) :: allIds (next + 2) n := rfl

/-- Every identity handed out in a run starting at `next` is at least `next`. -/
theorem allIds_lower_bound :
    ∀ (n next x : Nat), x ∈ allIds next n → next ≤ x := by
  intro n
  induction n with
  | zero => intro next x h; simp [allIds, serveRequests] at h
  | succ n ih =>
      intro next x h
      rw [allIds_succ] at h
      rcases List.mem_cons.mp h with h1 | h'
      · omega
      · rcases List.mem_cons.mp h' with h2 | h3
        · omega
        · have := ih (next + 2) x h3
          omega

/-- C5: every inbound request gets its own brand-new `McpServer` and its own
brand-new transport: across a run of `n` requests every allocated instance
identity is distinct (no registry or transport instance is shared or reused
between two requests, and no registry coincides with a transport), and each
of the `n` requests gets its own instance pair. -/
theorem C5_per_request_instances_fresh (next n : Nat) :
    (allIds next n).Nodup ∧ (serveRequests next n).length = n := by
  constructor
  · induction n generalizing next with
    | zero => simp [allIds, serveRequests]
    | succ n ih =>
        rw [allIds_succ]
        refine List.nodup_cons.mpr ⟨?_, List.nodup_cons.mpr ⟨?_, ih (next + 2)⟩⟩
        · intro h
          rcases List.mem_cons.mp h with h1 | h2
          · omega
          · have := allIds_lower_bound n (next + 2) next h2
            omega
        · intro h
          have := allIds_lower_bound n (next + 2) (next + 1) h
          omega
  · induction n generalizing next with
    | zero => rfl
    | succ n ih => simpa [serveRequests] using ih (next + 2)

/-- C6 counterexample: when the bind fails, the promise awaited by
`startHappyServer` does not reject with the bind error (its executor receives
no reject and installs no error listener) — it never settles at all, so the
failure is not surfaced to the caller of start; start hangs instead. -/
theorem C6_bind_failure_counterexample :
    baseUrlPromise (Except.error (JsValue.str "listen EADDRINUSE")) = PromiseState.pending ∧
    baseUrlPromise (Except.error (JsValue.str "listen EADDRINUSE")) ≠ PromiseState.rejected (JsValue.str "listen EADDRINUSE") := by
  decide

/-- C6 amended: a bind failure is not caught and no retry is attempted, but
it does not propagate to the caller of start either: for every bind error the
promise start awaits stays pending forever (the error surfaces only as an
unhandled `error` event on the server object). -/
theorem C6_bind_failure_pending (e : JsValue) :
    baseUrlPromise (Except.error e) = PromiseState.pending := rfl

/-- C7 counterexample: at OS-assigned port 3000 the handle's `url` is
`http://127.0.0.1:3000/` — WHATWG URL serialization appends a trailing slash —
and so it is not exactly the string `http://127.0.0.1:3000` the claim
requires. -/
theorem C7_url_counterexample :
    (startHappyServer "session-1" 3000).url = "http://127.0.0.1:3000/" ∧
    (startHappyServer "session-1" 3000).url ≠ "http://127.0.0.1:3000" := by
  decide

/-- C7 amended: start resolves only once the listener reports it is bound
(a failed bind never resolves the awaited promise), and the resolved handle's
`url` is exactly `http://127.0.0.1:<port>/` — the OS-assigned port, with the
trailing slash produced by URL serialization. -/
theorem C7_url_of_bound_port (sessionId : String) (port : Nat) :
    (startHappyServer sessionId port).url = "http://127.0.0.1:" ++ toString port ++ "/" ∧
    baseUrlPromise (Except.ok port) = PromiseState.resolved ((startHappyServer sessionId port).url) ∧
    (∀ (e : JsValue) (v : String), baseUrlPromise (Except.error e) ≠ PromiseState.resolved v) := by
  refine ⟨rfl, rfl, ?_⟩
  intro e v h
  simp [baseUrlPromise] at h

/-- C8: for every invocation of start — whatever the session client's
identifier and whatever port the OS assigns — the handle's `toolNames` is the
single-element list containing `change_title`. -/
theorem C8_toolNames (sessionId : String) (boundPort : Nat) :
    (startHappyServer sessionId boundPort).toolNames = ["change_title"] := rfl

/-- C9: on the failure path the handler's `error` field is always `some` of
the `String(...)` conversion of the thrown value (never absent), and the
`Unknown error` fallback is chosen by `response.error || 'Unknown error'`
exactly when that conversion is the empty string: an empty conversion yields
the fallback, a non-empty conversion (e.g. `Error: <message>` for a thrown
`Error` object, not the bare message) is kept verbatim. -/
theorem C9_error_stringification (send : ClaudeSessionMessage → SendOutcome)
    (hn uuid title : String) (e : JsValue)
    (h : send (mkMsg hn uuid title) = SendOutcome.raise e) :
    (handler send hn uuid title).result.error = some (jsString e) ∧
    (jsString e = "" → errorOrUnknown ((handler send hn uuid title).result.error) = "Unknown error") ∧
    (jsString e ≠ "" → errorOrUnknown ((handler send hn uuid title).result.error) = jsString e) := by
  refine ⟨?_, ?_, ?_⟩
  · simp only [handler, h]
  · intro he
    simp only [handler, h]
    simp [errorOrUnknown, he]
  · intro he
    simp only [handler, h]
    simp [errorOrUnknown, he]

/-- Witness for C9: a thrown `Error` object with message `boom` stringifies
to `Error: boom` (not the bare `boom`), which is non-empty, so it is kept
verbatim in the failure record. -/
theorem C9_error_stringification_witness :
    (fun _ : ClaudeSessionMessage => SendOutcome.raise (JsValue.errorObj "Error" "boom")) (mkMsg "myhost" "u3" "T") = SendOutcome.raise (JsValue.errorObj "Error" "boom") ∧
    (handler (fun _ => SendOutcome.raise (JsValue.errorObj "Error" "boom")) "myhost" "u3" "T").result.error = some "Error: boom" :=
  ⟨rfl, ((C9_error_stringification (fun _ => SendOutcome.raise (JsValue.errorObj "Error" "boom")) "myhost" "u3" "T" (JsValue.errorObj "Error" "boom") rfl).1).trans (by decide)⟩

/-- C10: the gateway touches the session client's send capability only inside
an execution of the tool body: the operations start and stop perform on the
client are all reads of `sessionId` (for log strings, never a send and never
a mutation), while one tool-body execution performs exactly one send of the
summary message. -/
theorem C10_send_only_in_tool_body :
    startClientOps.all (fun op => op == ClientOp.readSessionId) = true ∧
    stopClientOps.all (fun op => op == ClientOp.readSessionId) = true ∧
    ∀ hn uuid title : String,
      handlerClientOps hn uuid title = [ClientOp.sendMessage (mkMsg hn uuid title)] :=
  ⟨rfl, rfl, fun _ _ _ => rfl⟩
